import Mathlib

/-!
# Verification of the contextual retrieval orchestrator

Shallow embedding of the retrieval pipeline of `ai-ta-backend`:

* `ai_ta_backend/database/graph.py` — the Cypher-query generators and the
  bounded retry runner `run_kg_query_with_retries` (a LangGraph loop over
  `KGQueryState`);
* `ai_ta_backend/service/retrieval_service.py` — `getTopContexts`, the
  keyword routers `should_query_primekg` / `should_query_clinical_kg`, the
  search-result normalisation `_process_search_results` / `format_for_json`,
  and the two knowledge-graph context builders.

Python dictionaries are modelled as association lists over an inductive
`PyVal` value type, with Python truthiness and `dict.get` semantics made
explicit.  External collaborators (SQL store, vector DB, the two Neo4j
chains, the OpenAI summariser) are inputs of the model: each is an
`Except`-valued oracle describing the outcome of the corresponding network
call in the scenario under consideration.  Side effects that the claims
talk about (was vector search reached, was a graph runner invoked, was the
summariser called) are recorded in an explicit trace.
-/

/-- Python values, as far as the retrieval pipeline inspects them.
`none` is Python `None`; `dict` is an association list with unique keys. -/
inductive PyVal where
  | none : PyVal
  | str (s : String) : PyVal
  | int (n : Int) : PyVal
  | list (xs : List PyVal) : PyVal
  | dict (d : List (String × PyVal)) : PyVal

/-- A Python dictionary: association list, first occurrence of a key wins. -/
abbrev Pdict := List (String × PyVal)

/-- Lookup `d[k]` as a partial operation (Python raises `KeyError` when absent). -/
def dictGet : Pdict → String → Option PyVal
  | [], _ => Option.none
  | (k', v) :: rest, k => if k' == k then some v else dictGet rest k

/-- Lookup `d.get(k)`: Python returns `None` when the key is absent. -/
def dictGetD (d : Pdict) (k : String) : PyVal :=
  (dictGet d k).getD PyVal.none

/-- Test `k in d`. -/
def dictHasKey (d : Pdict) (k : String) : Bool :=
  (dictGet d k).isSome

/-- Deletion `del d[k]`. -/
def dictErase (d : Pdict) (k : String) : Pdict :=
  d.filter (fun p => !(p.1 == k))

/-- Assignment `d[k] = v` (overwrite or append). -/
def dictInsert (d : Pdict) (k : String) (v : PyVal) : Pdict :=
  dictErase d k ++ [(k, v)]

/-- Python truthiness of a value (`bool(v)`). -/
def pyTruthy : PyVal → Bool
  | .none => false
  | .str s => !s.isEmpty
  | .int n => n != 0
  | .list xs => !xs.isEmpty
  | .dict d => !d.isEmpty

/-- ASCII lower-casing of one character, as `str.lower` does on ASCII. -/
def lowerChar (c : Char) : Char :=
  if c.toNat ≥ 65 ∧ c.toNat ≤ 90 then Char.ofNat (c.toNat + 32) else c

/-- Model of Python `s.lower()` (the pipeline only lowercases ASCII text). -/
def pyLower (s : String) : String :=
  ⟨s.data.map lowerChar⟩

/-- Does `needle` occur at the start of `hay`? -/
def listStartsWith : List Char → List Char → Bool
  | [], _ => true
  | _ :: _, [] => false
  | a :: as, b :: bs => a == b && listStartsWith as bs

/-- Does `needle` occur as a contiguous run inside `hay`? -/
def listContainsSub (needle : List Char) : List Char → Bool
  | [] => needle.isEmpty
  | b :: bs => listStartsWith needle (b :: bs) || listContainsSub needle bs

/-- Model of Python `needle in haystack` for strings. -/
def strContainsSub (haystack needle : String) : Bool :=
  listContainsSub needle.data haystack.data

/-- The apostrophe character, kept out of string literals. -/
def apos : Char := Char.ofNat 39

/-- The double-quote character. -/
def dq : String := "\""

/-!
## Embedding of `ai_ta_backend/database/graph.py`

### Entity extraction (`re.findall` on the two-entity pattern)

`generate_primekg_cypher` and `generate_clinicalkg_cypher` both run
`re.findall` of the pattern `([\w\- ]+) and ([\w\- ]+)` on `user_query` with `re.IGNORECASE` and
take the first match.  The functions below implement exactly that regex
for ASCII text: the character class `[\w\- ]`, the literal `" and "`
matched case-insensitively, a greedy-with-backtracking first group, a
greedy second group, and leftmost-first scanning.
-/

/-- A character matched by `\w` (ASCII fragment of Python word characters). -/
def isWordChar (c : Char) : Bool :=
  c.isAlpha || c.isDigit || c == '_'

/-- A character matched by the class in the pattern: word chars, hyphen, space. -/
def isClassChar (c : Char) : Bool :=
  isWordChar c || c == '-' || c == ' '

/-- Consume the literal `" and "` case-insensitively; return the rest. -/
def consumeAnd : List Char → Option (List Char)
  | ' ' :: a :: n :: d :: ' ' :: rest =>
    if lowerChar a == 'a' && lowerChar n == 'n' && lowerChar d == 'd' then some rest
    else Option.none
  | _ => Option.none

/-- Greedy group 1 with backtracking: try group-1 length `k`, `k-1`, …, `1`.
`l` starts with at least `k` class characters when called from `matchTwoFrom`. -/
def tryGroup1 (l : List Char) : Nat → Option (List Char × List Char)
  | 0 => Option.none
  | k + 1 =>
    match consumeAnd (l.drop (k + 1)) with
    | some rest =>
      let g2 := rest.takeWhile isClassChar
      if g2.isEmpty then tryGroup1 l k else some (l.take (k + 1), g2)
    | Option.none => tryGroup1 l k

/-- Leftmost match of the two-entity pattern: scan start positions left to right. -/
def matchTwoFrom : List Char → Option (List Char × List Char)
  | [] => Option.none
  | c :: rest =>
    match tryGroup1 (c :: rest) ((c :: rest).takeWhile isClassChar).length with
    | some (g1, g2) => some (g1, g2)
    | Option.none => matchTwoFrom rest

/-- Python strip of spaces and double quotes from both ends of a string. -/
def stripSpaceQuote (s : String) : String :=
  let cs : List Char := [' ', '"']
  ⟨((s.data.dropWhile (fun c => cs.contains c)).reverse.dropWhile
      (fun c => cs.contains c)).reverse⟩

/-- The `entity1`/`entity2` extraction shared by both Cypher generators:
first `findall` match of `([\w\- ]+) and ([\w\- ]+)`, both groups stripped
of spaces and quotes.  `none` models Python `entity1 = entity2 = None`. -/
def extractEntities (user_query : String) : Option (String × String) :=
  match matchTwoFrom user_query.data with
  | some (g1, g2) => some (stripSpaceQuote ⟨g1⟩, stripSpaceQuote ⟨g2⟩)
  | Option.none => Option.none

/-- Truthiness of Python `entity1` (a `str | None`): `None` and `""` are falsy. -/
def optStrTruthy : Option String → Bool
  | some s => !s.isEmpty
  | Option.none => false

/-- The general connective terms both generators look for. -/
def generalTerms : List String :=
  ["related to", "associated with", "connected to", "linked to", "connection",
   "relationship"]

/-- Attempt-0 suffix, shared by both generators (source lines 40 and 81). -/
def attempt0Suffix : String :=
  " (map user terms to closest schema node labels/relationships, use synonyms if needed)"

/-- Attempt-1 broaden suffix (source lines 53 and 94).  The source string
contains single quotes around `related to`; they are assembled from `apos`. -/
def broadenSuffix : String :=
  " (broaden: treat general terms like " ++ String.singleton apos ++ "related to"
    ++ String.singleton apos
    ++ " as any plausible relationship, use -[]-> or multiple types)"

/-- Attempt-2 suffix (source lines 56 and 97). -/
def attempt2Suffix : String :=
  " (try alternative node labels, relationship types, and synonyms from schema)"

/-- Fallback suffix (source lines 59 and 100). -/
def fallbackSuffix : String :=
  " (fallback: use the most general relationship and node label patterns)"

/-- The two-entity retry query of `generate_primekg_cypher` (source lines 43-50). -/
def primekgTwoEntityQuery (entity1 entity2 : String) : String :=
  "Find any connections between entities using partial matching and any relationship type: "
    ++ "MATCH (d1:disease), (d2:disease) "
    ++ "WHERE toLower(d1.node_name) CONTAINS " ++ dq ++ pyLower entity1 ++ dq ++ " "
    ++ "AND toLower(d2.node_name) CONTAINS " ++ dq ++ pyLower entity2 ++ dq ++ " "
    ++ "MATCH (d1)-[r]-(d2) "
    ++ "RETURN d1.node_name AS Disease1, d2.node_name AS Disease2, type(r) AS RelationshipType, r"

/-- The two-entity retry query of `generate_clinicalkg_cypher` (source lines 84-91). -/
def clinicalkgTwoEntityQuery (entity1 entity2 : String) : String :=
  "Find any connections between entities using partial matching and any relationship type: "
    ++ "MATCH (n1), (n2) "
    ++ "WHERE toLower(n1.name) CONTAINS " ++ dq ++ pyLower entity1 ++ dq ++ " "
    ++ "AND toLower(n2.name) CONTAINS " ++ dq ++ pyLower entity2 ++ dq ++ " "
    ++ "MATCH (n1)-[r]-(n2) "
    ++ "RETURN n1.name AS Entity1, n2.name AS Entity2, type(r) AS RelationshipType, r"

/-- Model of `generate_primekg_cypher` (graph.py lines 19-59). -/
def generate_primekg_cypher (user_query : String) (attempt : Nat) : String :=
  let lower_query := pyLower user_query
  let uses_general_term := generalTerms.any (fun t => strContainsSub lower_query t)
  let ents := extractEntities user_query
  let entity1 : Option String := ents.map (·.1)
  let entity2 : Option String := ents.map (·.2)
  if attempt == 0 then
    user_query ++ attempt0Suffix
  else if (attempt == 1 || attempt == 2) && optStrTruthy entity1 && optStrTruthy entity2 then
    primekgTwoEntityQuery (entity1.getD "") (entity2.getD "")
  else if attempt == 1 && uses_general_term then
    user_query ++ broadenSuffix
  else if attempt == 2 then
    user_query ++ attempt2Suffix
  else
    user_query ++ fallbackSuffix

/-- Model of `generate_clinicalkg_cypher` (graph.py lines 62-100). -/
def generate_clinicalkg_cypher (user_query : String) (attempt : Nat) : String :=
  let lower_query := pyLower user_query
  let uses_general_term := generalTerms.any (fun t => strContainsSub lower_query t)
  let ents := extractEntities user_query
  let entity1 : Option String := ents.map (·.1)
  let entity2 : Option String := ents.map (·.2)
  if attempt == 0 then
    user_query ++ attempt0Suffix
  else if (attempt == 1 || attempt == 2) && optStrTruthy entity1 && optStrTruthy entity2 then
    clinicalkgTwoEntityQuery (entity1.getD "") (entity2.getD "")
  else if attempt == 1 && uses_general_term then
    user_query ++ broadenSuffix
  else if attempt == 2 then
    user_query ++ attempt2Suffix
  else
    user_query ++ fallbackSuffix

/-!
### The retry runner `run_kg_query_with_retries` (graph.py lines 490-555)

The LangGraph loop: `query_node` generates a Cypher candidate, invokes the
chain (any exception is swallowed into `{}`), appends the candidate to
`queries_tried`, stores the raw result and increments `attempt`; then
`should_retry` routes to `"success"` when the raw result is a dict whose
`"result"` entry is truthy, to `"query_node"` while `attempt <
max_attempts`, and to `"fail"` otherwise.  The terminal routing label is
reported alongside the final state.
-/

/-- The retry loop state (`KGQueryState` TypedDict, graph.py lines 11-16). -/
structure KGQueryState where
  user_query : String
  attempt : Nat
  queries_tried : List String
  results : PyVal
  max_attempts : Nat

/-- Terminal routing label of `should_retry`: `"success"` or `"fail"`. -/
inductive KGStatus where
  | success : KGStatus
  | failed : KGStatus

/-- Outcome of `chain.invoke` inside `query_node`: an exception is caught
and replaced by the empty dict (graph.py lines 512-516). -/
def chainResult (chain : String → Except String PyVal) (cypher : String) : PyVal :=
  match chain cypher with
  | .ok r => r
  | .error _ => PyVal.dict []

/-- One execution of `query_node` (graph.py lines 506-521). -/
def queryNode (chain : String → Except String PyVal) (gen : String → Nat → String)
    (s : KGQueryState) : KGQueryState :=
  { user_query := s.user_query
    attempt := s.attempt + 1
    queries_tried := s.queries_tried ++ [gen s.user_query s.attempt]
    results := chainResult chain (gen s.user_query s.attempt)
    max_attempts := s.max_attempts }

/-- The success test of `should_retry` (graph.py line 527):
`isinstance(results, dict) and results.get("result")`. -/
def kgSuccess : PyVal → Bool
  | .dict d => pyTruthy (dictGetD d "result")
  | _ => false

/-- The LangGraph loop: run `query_node`, then follow the conditional edge
of `should_retry` until it routes to `END` (graph.py lines 523-545). -/
def run_kg_loop (chain : String → Except String PyVal) (gen : String → Nat → String)
    (s : KGQueryState) : KGStatus × KGQueryState :=
  if kgSuccess (queryNode chain gen s).results then
    (KGStatus.success, queryNode chain gen s)
  else if h : (queryNode chain gen s).attempt < (queryNode chain gen s).max_attempts then
    run_kg_loop chain gen (queryNode chain gen s)
  else
    (KGStatus.failed, queryNode chain gen s)
termination_by s.max_attempts - s.attempt
decreasing_by
  simp only [queryNode] at h ⊢
  omega

/-- Model of `run_kg_query_with_retries` (graph.py lines 490-555): build the initial
state and run the compiled loop. -/
def run_kg_query_with_retries (chain : String → Except String PyVal)
    (gen : String → Nat → String) (user_query : String) (max_attempts : Nat) :
    KGStatus × KGQueryState :=
  run_kg_loop chain gen
    { user_query := user_query
      attempt := 0
      queries_tried := []
      results := PyVal.dict []
      max_attempts := max_attempts }

/-- The final state serialised back to the Python dict that `graph.invoke`
returns to the callers in `retrieval_service.py`. -/
def stateToDict (s : KGQueryState) : Pdict :=
  [("user_query", PyVal.str s.user_query),
   ("attempt", PyVal.int s.attempt),
   ("queries_tried", PyVal.list (s.queries_tried.map PyVal.str)),
   ("results", s.results),
   ("max_attempts", PyVal.int s.max_attempts)]

/-- Model of `run_primekg_query_with_retries` (graph.py lines 557-573), with the
chain supplied as an oracle and the default `max_attempts = 3`. -/
def run_primekg_query_with_retries (chain : String → Except String PyVal)
    (user_query : String) : Pdict :=
  stateToDict (run_kg_query_with_retries chain generate_primekg_cypher user_query 3).2

/-- Model of `run_clinicalkg_query_with_retries` (graph.py lines 575-591). -/
def run_clinicalkg_query_with_retries (chain : String → Except String PyVal)
    (user_query : String) : Pdict :=
  stateToDict (run_kg_query_with_retries chain generate_clinicalkg_cypher user_query 3).2

/-!
## Embedding of `ai_ta_backend/service/retrieval_service.py`

External collaborators are oracles: every `Except.error` models the
corresponding Python call raising an exception in this scenario.
-/

/-- Outcomes of the external calls made by one `getTopContexts` request.
`disabledRows` / `publicRows` are the `.data` rows of the two SQL lookups,
`embedding` the embedding client result, `searchResults` the payloads of
the scored points returned by the vector database, `primekgChain` /
`clinicalChain` the per-cypher outcome of the two `GraphCypherQAChain`s,
and `summarize` the outcome of `generate_openai_summary` on a user query
and a raw KG result. -/
structure RetrievalDeps where
  disabledRows : Except String (List Pdict)
  publicRows : Except String (List Pdict)
  embedding : Except String (List Int)
  searchResults : Except String (List Pdict)
  primekgChain : String → Except String PyVal
  clinicalChain : String → Except String PyVal
  summarize : String → PyVal → Except String String

/-- Which externally visible effects one request performed. -/
structure RetrievalTrace where
  vectorSearchInvoked : Bool
  primekgInvoked : Bool
  clinicalkgInvoked : Bool
  primekgSummarizeCalled : Bool
  clinicalSummarizeCalled : Bool

/-- The all-false trace: nothing beyond the initial fan-out ran. -/
def noTrace : RetrievalTrace :=
  { vectorSearchInvoked := false, primekgInvoked := false, clinicalkgInvoked := false
    primekgSummarizeCalled := false, clinicalSummarizeCalled := false }

/-- Model of `should_query_primekg` (retrieval_service.py lines 838-843). -/
def should_query_primekg (search_query : String) : Bool :=
  ["disease", "drug", "gene", "symptom", "side effect", "treatment", "primekg",
   "cell"].any (fun kw => strContainsSub (pyLower search_query) kw)

/-- Model of `should_query_clinical_kg` (retrieval_service.py lines 845-850). -/
def should_query_clinical_kg (search_query : String) : Bool :=
  ["patient", "symptom", "diagnosis", "treatment", "clinical", "disease", "drug",
   "gene", "side effect"].any (fun kw => strContainsSub (pyLower search_query) kw)

/-- A langchain `Document`: the extracted page content plus the remaining
metadata dict. -/
structure Document where
  page_content : String
  metadata : Pdict

/-- Processing of one scored point inside `_process_search_results`
(retrieval_service.py lines 553-565).  A missing `page_content` key (or a
non-string one, rejected by the `Document` model) raises, is caught per
document, and drops that document. -/
def processPayload (payload : Pdict) : Option Document :=
  match dictGet payload "page_content" with
  | some (PyVal.str page_content) =>
    let metadata := dictErase payload "page_content"
    let metadata :=
      if !dictHasKey metadata "pagenumber" && dictHasKey metadata "pagenumber_or_timestamp"
      then dictInsert metadata "pagenumber" (dictGetD metadata "pagenumber_or_timestamp")
      else metadata
    some { page_content := page_content, metadata := metadata }
  | _ => Option.none

/-- Model of `_process_search_results` (retrieval_service.py lines 551-566). -/
def processSearchResults (search_results : List Pdict) : List Document :=
  search_results.filterMap processPayload

/-- One entry of `format_for_json` (retrieval_service.py lines 606-618).
`metadata["readable_filename"]` and `metadata["course_name"]` raise
`KeyError` when absent — that exception is not caught here and aborts the
whole request.  Note that the output key `"course_name "` in the source carries a
trailing space (line 610). -/
def format_one (doc : Document) : Except String Pdict :=
  match dictGet doc.metadata "readable_filename", dictGet doc.metadata "course_name" with
  | some rf, some cn =>
    .ok [("text", PyVal.str doc.page_content),
         ("readable_filename", rf),
         ("course_name ", cn),
         ("s3_path", dictGetD doc.metadata "s3_path"),
         ("pagenumber", dictGetD doc.metadata "pagenumber"),
         ("url", dictGetD doc.metadata "url"),
         ("base_url", dictGetD doc.metadata "base_url"),
         ("doc_groups", dictGetD doc.metadata "doc_groups")]
  | _, _ => .error "KeyError in format_for_json"

/-- Model of `format_for_json` (retrieval_service.py lines 597-618): the list
comprehension aborts on the first `KeyError`. -/
def format_for_json (found_docs : List Document) : Except String (List Pdict) :=
  found_docs.mapM format_one

/-- The phrase tested by the KG post-processing (the IDK phrase), with its
apostrophe assembled from `apos`. -/
def idkPhrase : String :=
  "i don" ++ String.singleton apos ++ "t know the answer"

/-- The test on `results_obj["result"]` (retrieval_service.py lines 775 and
817): `isinstance(result_text, str)` and the IDK phrase being a substring
of `result_text.lower()`. -/
def isIdkText : PyVal → Bool
  | PyVal.str s => strContainsSub (pyLower s) idkPhrase
  | _ => false

/-- The dict returned by both KG context builders when their body raises
(retrieval_service.py lines 797 and 836). -/
def kgErrorDict : Pdict :=
  [("result", PyVal.str "An error occurred while processing your knowledge graph query.")]

/-- The context dict assembled by `getPrimeKGContexts` on success
(retrieval_service.py lines 821-831). -/
def primeKGContextDict (result_text : PyVal) (summary : String) : Pdict :=
  [("kg_result", result_text),
   ("readable_filename", PyVal.str "PrimeKG"),
   ("course_name", PyVal.none),
   ("s3_path", PyVal.none),
   ("pagenumber", PyVal.none),
   ("url", PyVal.none),
   ("base_url", PyVal.none),
   ("doc_groups", PyVal.none),
   ("text", PyVal.str summary)]

/-- Model of `getPrimeKGContexts` (retrieval_service.py lines 800-836).  Returns the
resulting dict together with whether `generate_openai_summary` was called.
The only fallible step after the retry runner is the summary call; its
exception is caught by the enclosing `try` and yields `kgErrorDict`. -/
def getPrimeKGContexts (chain : String → Except String PyVal)
    (summarize : String → PyVal → Except String String) (user_query : String) :
    Pdict × Bool :=
  match dictGetD (run_primekg_query_with_retries chain user_query) "results" with
  | PyVal.dict results_obj =>
    if dictHasKey results_obj "result" then
      if isIdkText (dictGetD results_obj "result") then ([], false)
      else
        match summarize user_query (dictGetD results_obj "result") with
        | .ok summary => (primeKGContextDict (dictGetD results_obj "result") summary, true)
        | .error _ => (kgErrorDict, true)
    else (run_primekg_query_with_retries chain user_query, false)
  | _ => (run_primekg_query_with_retries chain user_query, false)

/-- The context dict assembled by `getKnowledgeGraphContexts` on success
(retrieval_service.py lines 779-791). -/
def clinicalKGContextDict (result_text : PyVal) (summary course_name : String)
    (results_obj : Pdict) : Pdict :=
  [("text", PyVal.str summary),
   ("kg_result", result_text),
   ("readable_filename", PyVal.str "ClinicalKG"),
   ("course_name", PyVal.str course_name),
   ("s3_path", PyVal.none),
   ("pagenumber", PyVal.none),
   ("url", PyVal.none),
   ("base_url", PyVal.none),
   ("doc_groups", PyVal.none),
   ("clinicalkg_intermediate_steps", dictGetD results_obj "intermediate_steps"),
   ("clinicalkg_query", dictGetD results_obj "query")]

/-- Model of `getKnowledgeGraphContexts` (retrieval_service.py lines 759-797), the
Clinical KG analogue: same shape, extra `course_name` /
`clinicalkg_intermediate_steps` / `clinicalkg_query` fields. -/
def getKnowledgeGraphContexts (chain : String → Except String PyVal)
    (summarize : String → PyVal → Except String String)
    (user_query course_name : String) : Pdict × Bool :=
  match dictGetD (run_clinicalkg_query_with_retries chain user_query) "results" with
  | PyVal.dict results_obj =>
    if dictHasKey results_obj "result" then
      if isIdkText (dictGetD results_obj "result") then ([], false)
      else
        match summarize user_query (dictGetD results_obj "result") with
        | .ok summary =>
          (clinicalKGContextDict (dictGetD results_obj "result") summary course_name
            results_obj, true)
        | .error _ => (kgErrorDict, true)
    else (run_clinicalkg_query_with_retries chain user_query, false)
  | _ => (run_clinicalkg_query_with_retries chain user_query, false)

/-- The filter of the `get_kg_context` helper (retrieval_service.py lines
150-155): keep a KG result only if it is a truthy dict whose `"text"`
entry is truthy.  `none` input means the router declined the path. -/
def kgKeep : Option (Pdict × Bool) → Option Pdict
  | some (r, _) => if !r.isEmpty && pyTruthy (dictGetD r "text") then some r else Option.none
  | Option.none => Option.none

/-- Whether the KG path called the summariser (`false` when not routed). -/
def kgSummarized : Option (Pdict × Bool) → Bool
  | some (_, b) => b
  | Option.none => false

/-- Comprehension `[row[key] for row in rows]` — `KeyError` aborts it. -/
def listPluck (rows : List Pdict) (key : String) : Option (List PyVal) :=
  rows.mapM (fun r => dictGet r key)

/-- The error string built by the outer `except` of `getTopContexts`
(retrieval_service.py lines 167-174); the traceback is elided. -/
def errTopContexts (course_name search_query cause : String) : String :=
  "ERROR: In /getTopContexts. Course: " ++ course_name ++ " ||| search_query: "
    ++ search_query ++ "\n" ++ cause

/-- Model of `getTopContexts` (retrieval_service.py lines 77-174).

* The three fanned-out lookups (disabled groups, public groups, embedding)
  all run; `asyncio.gather` re-raises the first failure, which the outer
  `except` turns into an error string, before vector search is reached.
  (Which of several simultaneous failures surfaces is scheduler-dependent
  in Python; the model picks them in list order.)
* An empty processed-document list returns `[]` immediately (line 132) —
  before any knowledge-graph routing.
* Otherwise the formatted vector items are followed by the PrimeKG context
  (if routed and kept) and then the Clinical KG context (if routed and
  kept), lines 157-166. -/
def getTopContexts (deps : RetrievalDeps) (search_query course_name : String) :
    Except String (List Pdict) × RetrievalTrace :=
  match deps.disabledRows, deps.publicRows, deps.embedding with
  | .ok disabledRows, .ok publicRows, .ok _embedding =>
    match listPluck disabledRows "name", listPluck publicRows "doc_groups" with
    | some _disabled, some _public =>
      match deps.searchResults with
      | .ok search_results =>
        let found_docs := processSearchResults search_results
        if found_docs.isEmpty then
          (.ok [], { noTrace with vectorSearchInvoked := true })
        else
          match format_for_json found_docs with
          | .ok formatted =>
            let pkRouted := should_query_primekg search_query
            let ckRouted := should_query_clinical_kg search_query
            let pk := if pkRouted then
                some (getPrimeKGContexts deps.primekgChain deps.summarize search_query)
              else Option.none
            let ck := if ckRouted then
                some (getKnowledgeGraphContexts deps.clinicalChain deps.summarize
                  search_query course_name)
              else Option.none
            (.ok (formatted ++ (kgKeep pk).toList ++ (kgKeep ck).toList),
             { vectorSearchInvoked := true
               primekgInvoked := pkRouted
               clinicalkgInvoked := ckRouted
               primekgSummarizeCalled := kgSummarized pk
               clinicalSummarizeCalled := kgSummarized ck })
          | .error e =>
            (.error (errTopContexts course_name search_query e),
             { noTrace with vectorSearchInvoked := true })
      | .error e =>
        (.error (errTopContexts course_name search_query e), noTrace)
    | _, _ =>
      (.error (errTopContexts course_name search_query "KeyError in doc group rows"), noTrace)
  | .error e, _, _ =>
    (.error (errTopContexts course_name search_query e), noTrace)
  | _, .error e, _ =>
    (.error (errTopContexts course_name search_query e), noTrace)
  | _, _, .error e =>
    (.error (errTopContexts course_name search_query e), noTrace)

/-!
## Helper lemmas
-/

/-- Erasing one key leaves lookups of other keys unchanged. -/
lemma dictGet_erase_ne (d : Pdict) (k k' : String) (h : k' ≠ k) :
    dictGet (dictErase d k) k' = dictGet d k' := by
  induction d with
  | nil => rfl
  | cons p rest ih =>
    obtain ⟨pk, pv⟩ := p
    by_cases hp : pk = k
    · simp only [dictErase] at ih
      simp [dictErase, dictGet, List.filter_cons, hp, Ne.symm h, ih]
    · simp only [dictErase, List.filter_cons] at ih ⊢
      simp only [show (pk == k) = false by simpa using hp, Bool.not_false, if_true]
      by_cases hk' : pk = k'
      · simp [dictGet, hk']
      · simp [dictGet, show (pk == k') = false by simpa using hk', ih]

/-- Lookup of the freshly inserted key. -/
lemma dictGet_insert_self (d : Pdict) (k : String) (v : PyVal) :
    dictGet (dictInsert d k v) k = some v := by
  unfold dictInsert
  induction d with
  | nil => simp [dictGet, dictErase]
  | cons p rest ih =>
    obtain ⟨pk, pv⟩ := p
    by_cases hp : pk = k
    · simpa [dictErase, List.filter_cons, hp] using ih
    · simpa [dictErase, List.filter_cons, dictGet, show (pk == k) = false by simpa using hp]
        using ih

/-- Inserting one key leaves lookups of other keys unchanged. -/
lemma dictGet_insert_ne (d : Pdict) (k k' : String) (v : PyVal) (h : k' ≠ k) :
    dictGet (dictInsert d k v) k' = dictGet d k' := by
  unfold dictInsert
  have hlast : ∀ l : Pdict, dictGet (l ++ [(k, v)]) k' = match dictGet l k' with
      | some w => some w
      | Option.none => dictGet [(k, v)] k' := by
    intro l
    induction l with
    | nil => simp [dictGet]
    | cons p rest ih =>
      obtain ⟨pk, pv⟩ := p
      by_cases hp : pk = k'
      · simp [dictGet, hp]
      · simp [dictGet, show (pk == k') = false by simpa using hp, ih]
  rw [hlast, dictGet_erase_ne _ _ _ h]
  have hnone : dictGet [(k, v)] k' = Option.none := by
    simp [dictGet, show (k == k') = false by simpa using Ne.symm h]
  rw [hnone]
  cases dictGet d k' <;> rfl

/-- The queries generated for attempts `a, a+1, …, a+n-1`. -/
def genQueries (gen : String → Nat → String) (q : String) : Nat → Nat → List String
  | _, 0 => []
  | a, n + 1 => gen q a :: genQueries gen q (a + 1) n

/-- Rewriting of `genQueries` through `List.range`. -/
lemma genQueries_eq_range (gen : String → Nat → String) (q : String) :
    ∀ n a, genQueries gen q a n = (List.range n).map (fun i => gen q (a + i)) := by
  intro n
  induction n with
  | zero => intro a; rfl
  | succ n ih =>
    intro a
    have hfun : ((fun i => gen q (a + i)) ∘ Nat.succ) = fun i => gen q (a + 1 + i) := by
      funext i
      simp only [Function.comp]
      congr 1
      omega
    rw [List.range_succ_eq_map, List.map_cons, List.map_map, hfun, genQueries, ih (a + 1)]
    simp

/-- One unfolding of the loop, for rewriting. -/
lemma run_kg_loop_step (chain : String → Except String PyVal)
    (gen : String → Nat → String) (s : KGQueryState) :
    run_kg_loop chain gen s =
      if kgSuccess (queryNode chain gen s).results then
        (KGStatus.success, queryNode chain gen s)
      else if (queryNode chain gen s).attempt < (queryNode chain gen s).max_attempts then
        run_kg_loop chain gen (queryNode chain gen s)
      else
        (KGStatus.failed, queryNode chain gen s) := by
  rw [run_kg_loop]
  split
  · rfl
  · split
    · rfl
    · rfl

/-- If the chain never yields a truthy `"result"`, the loop runs its
remaining `n + 1` iterations, fails, and accumulates exactly the generated
queries for attempts `attempt, …, max_attempts - 1`. -/
lemma run_kg_loop_all_fail (chain : String → Except String PyVal)
    (gen : String → Nat → String)
    (hfail : ∀ c, kgSuccess (chainResult chain c) = false) :
    ∀ n (s : KGQueryState), s.max_attempts = s.attempt + n + 1 →
      run_kg_loop chain gen s =
        (KGStatus.failed,
         { user_query := s.user_query
           attempt := s.max_attempts
           queries_tried :=
             s.queries_tried ++ genQueries gen s.user_query s.attempt (n + 1)
           results := chainResult chain (gen s.user_query (s.max_attempts - 1))
           max_attempts := s.max_attempts }) := by
  intro n
  induction n with
  | zero =>
    intro s hm
    rw [run_kg_loop_step]
    rw [if_neg (by simp [queryNode, hfail])]
    rw [if_neg (by simp only [queryNode]; omega)]
    have h1 : s.max_attempts - 1 = s.attempt := by omega
    simp [queryNode, genQueries, h1, hm]
  | succ n ih =>
    intro s hm
    rw [run_kg_loop_step]
    rw [if_neg (by simp [queryNode, hfail])]
    rw [if_pos (by simp only [queryNode]; omega)]
    rw [ih (queryNode chain gen s) (by simp only [queryNode]; omega)]
    simp [queryNode, genQueries]

/-!
## Claims
-/

/-- Claim C2: for every `user_query` and every `max_attempts ≥ 1`, if the
engine never yields a truthy `"result"` answer field, the retry runner
performs exactly `max_attempts` iterations, terminates in the failed
state, and the returned state has `attempt = max_attempts` and
`queries_tried` equal to the `max_attempts` generated query strings in
order. -/
theorem run_kg_retries_exhaustion_failed (chain : String → Except String PyVal)
    (gen : String → Nat → String) (user_query : String) (max_attempts : Nat)
    (hmax : 1 ≤ max_attempts)
    (hfail : ∀ c, kgSuccess (chainResult chain c) = false) :
    run_kg_query_with_retries chain gen user_query max_attempts =
      (KGStatus.failed,
       { user_query := user_query
         attempt := max_attempts
         queries_tried := (List.range max_attempts).map (gen user_query)
         results := chainResult chain (gen user_query (max_attempts - 1))
         max_attempts := max_attempts }) := by
  obtain ⟨n, rfl⟩ : ∃ n, max_attempts = n + 1 := ⟨max_attempts - 1, by omega⟩
  unfold run_kg_query_with_retries
  rw [run_kg_loop_all_fail chain gen hfail n _ (by simp)]
  simp [genQueries_eq_range]

/-- A chain that always answers with an empty dict. -/
def alwaysEmptyChain : String → Except String PyVal := fun _ => .ok (PyVal.dict [])

/-- An attempt-indexed query generator for the witnesses. -/
def indexedGen : String → Nat → String := fun q n => q ++ toString n

/-- Witness for C2 at `max_attempts = 2`. -/
theorem run_kg_retries_exhaustion_failed_witness :
    run_kg_query_with_retries alwaysEmptyChain indexedGen "x" 2 =
      (KGStatus.failed,
       { user_query := "x", attempt := 2, queries_tried := ["x0", "x1"],
         results := PyVal.dict [], max_attempts := 2 }) := by
  rw [run_kg_retries_exhaustion_failed alwaysEmptyChain indexedGen "x" 2 (by omega)
    (fun c => rfl)]
  rfl

/-- Claim C3: if the result of the engine is falsy on attempt indices 0 and 1
and first truthy on attempt index 2, the runner (at the default
`max_attempts = 3`) terminates in the success state with `attempt = 3` and
`queries_tried` carrying all three generated query strings in order. -/
theorem run_kg_retries_success_on_third_attempt (chain : String → Except String PyVal)
    (gen : String → Nat → String) (q : String)
    (h0 : kgSuccess (chainResult chain (gen q 0)) = false)
    (h1 : kgSuccess (chainResult chain (gen q 1)) = false)
    (h2 : kgSuccess (chainResult chain (gen q 2)) = true) :
    run_kg_query_with_retries chain gen q 3 =
      (KGStatus.success,
       { user_query := q, attempt := 3,
         queries_tried := [gen q 0, gen q 1, gen q 2],
         results := chainResult chain (gen q 2), max_attempts := 3 }) := by
  unfold run_kg_query_with_retries
  rw [run_kg_loop_step]
  rw [if_neg (by simp [queryNode, h0])]
  rw [if_pos (by simp only [queryNode]; omega)]
  rw [run_kg_loop_step]
  rw [if_neg (by simp [queryNode, h1])]
  rw [if_pos (by simp only [queryNode]; omega)]
  rw [run_kg_loop_step]
  rw [if_pos (by simp [queryNode, h2])]
  simp [queryNode]

/-- A chain that only answers the third generated query. -/
def thirdTimeChain : String → Except String PyVal := fun c =>
  if c == "x2" then .ok (PyVal.dict [("result", PyVal.str "ans")]) else .ok (PyVal.dict [])

/-- Witness for C3. -/
theorem run_kg_retries_success_on_third_attempt_witness :
    run_kg_query_with_retries thirdTimeChain indexedGen "x" 3 =
      (KGStatus.success,
       { user_query := "x", attempt := 3, queries_tried := ["x0", "x1", "x2"],
         results := PyVal.dict [("result", PyVal.str "ans")], max_attempts := 3 }) := by
  rw [run_kg_retries_success_on_third_attempt thirdTimeChain indexedGen "x" rfl rfl rfl]
  rfl

/-- Claim C10: whenever the two-entity pattern `<X> and <Y>` matches the
user query (with both stripped entities non-empty, as the source tests),
each Cypher generator returns the identical query string at attempt 1 and
at attempt 2 — the second retry repeats the query of the first retry instead of
varying the translation strategy. -/
theorem cypher_generators_repeat_on_retry (q e1 e2 : String)
    (hm : extractEntities q = some (e1, e2)) (h1 : e1 ≠ "") (h2 : e2 ≠ "") :
    generate_primekg_cypher q 1 = generate_primekg_cypher q 2 ∧
    generate_clinicalkg_cypher q 1 = generate_clinicalkg_cypher q 2 := by
  have he1 : e1.isEmpty = false := by
    rw [Bool.eq_false_iff]
    simpa [String.isEmpty_iff] using h1
  have he2 : e2.isEmpty = false := by
    rw [Bool.eq_false_iff]
    simpa [String.isEmpty_iff] using h2
  constructor
  · simp [generate_primekg_cypher, hm, optStrTruthy, he1, he2]
  · simp [generate_clinicalkg_cypher, hm, optStrTruthy, he1, he2]

/-- Witness for C10 on the query `diabetes and cancer`. -/
theorem cypher_generators_repeat_on_retry_witness :
    generate_primekg_cypher "diabetes and cancer" 1
        = generate_primekg_cypher "diabetes and cancer" 2 ∧
    generate_clinicalkg_cypher "diabetes and cancer" 1
        = generate_clinicalkg_cypher "diabetes and cancer" 2 :=
  cypher_generators_repeat_on_retry "diabetes and cancer" "diabetes" "cancer"
    (by decide) (by decide) (by decide)

/-- The four shapes the PrimeKG path can return. -/
lemma getPrimeKGContexts_cases (chain : String → Except String PyVal)
    (summarize : String → PyVal → Except String String) (q : String) :
    (getPrimeKGContexts chain summarize q).1 = [] ∨
    (getPrimeKGContexts chain summarize q).1 = kgErrorDict ∨
    (getPrimeKGContexts chain summarize q).1 = run_primekg_query_with_retries chain q ∨
    ∃ rt su, (getPrimeKGContexts chain summarize q).1 = primeKGContextDict rt su := by
  unfold getPrimeKGContexts
  split
  · split
    · split
      · left; rfl
      · split
        · right; right; right; exact ⟨_, _, rfl⟩
        · right; left; rfl
    · right; right; left; rfl
  · right; right; left; rfl

/-- The four shapes the Clinical KG path can return. -/
lemma getKnowledgeGraphContexts_cases (chain : String → Except String PyVal)
    (summarize : String → PyVal → Except String String) (q c : String) :
    (getKnowledgeGraphContexts chain summarize q c).1 = [] ∨
    (getKnowledgeGraphContexts chain summarize q c).1 = kgErrorDict ∨
    (getKnowledgeGraphContexts chain summarize q c).1 = run_clinicalkg_query_with_retries chain q ∨
    ∃ rt su robj, (getKnowledgeGraphContexts chain summarize q c).1
        = clinicalKGContextDict rt su c robj := by
  unfold getKnowledgeGraphContexts
  split
  · split
    · split
      · left; rfl
      · split
        · right; right; right; exact ⟨_, _, _, rfl⟩
        · right; left; rfl
    · right; right; left; rfl
  · right; right; left; rfl

/-- A runner state dict has no `"text"` entry. -/
lemma stateToDict_text (s : KGQueryState) :
    dictGetD (stateToDict s) "text" = PyVal.none := rfl

/-- The error dict has no `"text"` entry. -/
lemma kgErrorDict_text : dictGetD kgErrorDict "text" = PyVal.none := rfl

/-- The PrimeKG runner response has no `"text"` entry. -/
lemma run_primekg_text (chain : String → Except String PyVal) (q : String) :
    dictGetD (run_primekg_query_with_retries chain q) "text" = PyVal.none := rfl

/-- The Clinical KG runner response has no `"text"` entry. -/
lemma run_clinicalkg_text (chain : String → Except String PyVal) (q : String) :
    dictGetD (run_clinicalkg_query_with_retries chain q) "text" = PyVal.none := rfl

/-- Anything the merge keeps from the PrimeKG path is a PrimeKG context
dict with truthy text. -/
lemma kgKeep_prime_shape (bq : Bool) (chain : String → Except String PyVal)
    (summarize : String → PyVal → Except String String) (q : String) (d : Pdict)
    (h : kgKeep (if bq then some (getPrimeKGContexts chain summarize q)
          else Option.none) = some d) :
    (∃ rt su, d = primeKGContextDict rt su) ∧ pyTruthy (dictGetD d "text") = true := by
  cases bq with
  | false => simp [kgKeep] at h
  | true =>
    simp only [if_true] at h
    rcases hgp : getPrimeKGContexts chain summarize q with ⟨r, b⟩
    rw [hgp] at h
    simp only [kgKeep] at h
    by_cases hc : (!r.isEmpty && pyTruthy (dictGetD r "text")) = true
    · rw [if_pos hc] at h
      obtain ⟨hne, htext⟩ := Bool.and_eq_true_iff.mp hc
      obtain rfl : r = d := by injection h
      have hcases := getPrimeKGContexts_cases chain summarize q
      rw [hgp] at hcases
      rcases hcases with hr | hr | hr | ⟨rt, su, hr⟩ <;> simp only at hr <;> subst hr
      · simp at hne
      · rw [kgErrorDict_text] at htext
        simp [pyTruthy] at htext
      · rw [run_primekg_text] at htext
        simp [pyTruthy] at htext
      · exact ⟨⟨rt, su, rfl⟩, htext⟩
    · rw [if_neg hc] at h
      exact absurd h (by simp)

/-- Anything the merge keeps from the Clinical KG path is a ClinicalKG
context dict with truthy text. -/
lemma kgKeep_clinical_shape (bq : Bool) (chain : String → Except String PyVal)
    (summarize : String → PyVal → Except String String) (q c : String) (d : Pdict)
    (h : kgKeep (if bq then some (getKnowledgeGraphContexts chain summarize q c)
          else Option.none) = some d) :
    (∃ rt su robj, d = clinicalKGContextDict rt su c robj) ∧
      pyTruthy (dictGetD d "text") = true := by
  cases bq with
  | false => simp [kgKeep] at h
  | true =>
    simp only [if_true] at h
    rcases hgp : getKnowledgeGraphContexts chain summarize q c with ⟨r, b⟩
    rw [hgp] at h
    simp only [kgKeep] at h
    by_cases hc : (!r.isEmpty && pyTruthy (dictGetD r "text")) = true
    · rw [if_pos hc] at h
      obtain ⟨hne, htext⟩ := Bool.and_eq_true_iff.mp hc
      obtain rfl : r = d := by injection h
      have hcases := getKnowledgeGraphContexts_cases chain summarize q c
      rw [hgp] at hcases
      rcases hcases with hr | hr | hr | ⟨rt, su, robj, hr⟩ <;> simp only at hr <;> subst hr
      · simp at hne
      · rw [kgErrorDict_text] at htext
        simp [pyTruthy] at htext
      · rw [run_clinicalkg_text] at htext
        simp [pyTruthy] at htext
      · exact ⟨⟨rt, su, robj, rfl⟩, htext⟩
    · rw [if_neg hc] at h
      exact absurd h (by simp)

/-- Packaging helper for failure leaves. -/
lemma aborts_of_eq (res : Except String (List Pdict) × RetrievalTrace) (e : String)
    (h : res = (Except.error e, noTrace)) :
    (∃ err, res.1 = Except.error err) ∧ res.2 = noTrace := by
  subst h
  exact ⟨⟨e, rfl⟩, rfl⟩

/-- Claim C6: if resolving disabled document groups, resolving public
document groups, or computing the query embedding raises, `getTopContexts`
returns an error (not a context list), and neither vector search nor any
graph engine call is attempted (the trace stays all-false). -/
theorem getTopContexts_dependency_failure_aborts (deps : RetrievalDeps) (q c : String)
    (h : (∃ e, deps.disabledRows = Except.error e) ∨
         (∃ e, deps.publicRows = Except.error e) ∨
         (∃ e, deps.embedding = Except.error e)) :
    (∃ err, (getTopContexts deps q c).1 = Except.error err) ∧
      (getTopContexts deps q c).2 = noTrace := by
  rcases h with ⟨e, he⟩ | ⟨e, he⟩ | ⟨e, he⟩
  · exact aborts_of_eq _ (errTopContexts c q e) (by simp [getTopContexts, he])
  · cases hdr : deps.disabledRows with
    | error e2 => exact aborts_of_eq _ (errTopContexts c q e2) (by simp [getTopContexts, hdr])
    | ok dr => exact aborts_of_eq _ (errTopContexts c q e) (by simp [getTopContexts, he, hdr])
  · cases hdr : deps.disabledRows with
    | error e2 => exact aborts_of_eq _ (errTopContexts c q e2) (by simp [getTopContexts, hdr])
    | ok dr =>
      cases hpr : deps.publicRows with
      | error e2 =>
        exact aborts_of_eq _ (errTopContexts c q e2) (by simp [getTopContexts, hdr, hpr])
      | ok pr =>
        exact aborts_of_eq _ (errTopContexts c q e) (by simp [getTopContexts, he, hdr, hpr])

/-- Dependency outcomes where the embedding client raises. -/
def embedFailDeps : RetrievalDeps :=
  { disabledRows := .ok []
    publicRows := .ok []
    embedding := .error "connection refused"
    searchResults := .ok []
    primekgChain := fun _ => .ok (PyVal.dict [])
    clinicalChain := fun _ => .ok (PyVal.dict [])
    summarize := fun _ _ => .ok "summary" }

/-- Witness for C6. -/
theorem getTopContexts_dependency_failure_aborts_witness :
    (∃ err, (getTopContexts embedFailDeps "some query" "course").1 = Except.error err) ∧
      (getTopContexts embedFailDeps "some query" "course").2 = noTrace :=
  getTopContexts_dependency_failure_aborts embedFailDeps "some query" "course"
    (Or.inr (Or.inr ⟨"connection refused", rfl⟩))

/-- Claim C7: if the lowercased query contains no PrimeKG routing keyword
and no Clinical KG routing keyword, neither graph runner is invoked, no
summary is generated, and any successful result list is exactly the
formatted vector-search list — zero graph-sourced items. -/
theorem getTopContexts_no_keywords_no_graph (deps : RetrievalDeps) (q c : String)
    (h1 : should_query_primekg q = false) (h2 : should_query_clinical_kg q = false) :
    (getTopContexts deps q c).2.primekgInvoked = false ∧
    (getTopContexts deps q c).2.clinicalkgInvoked = false ∧
    (getTopContexts deps q c).2.primekgSummarizeCalled = false ∧
    (getTopContexts deps q c).2.clinicalSummarizeCalled = false ∧
    ∀ l, (getTopContexts deps q c).1 = Except.ok l →
      ∃ rs, deps.searchResults = Except.ok rs ∧
        format_for_json (processSearchResults rs) = Except.ok l := by
  cases hdr : deps.disabledRows with
  | error e => simp [getTopContexts, hdr, noTrace]
  | ok dr =>
  cases hpr : deps.publicRows with
  | error e => simp [getTopContexts, hdr, hpr, noTrace]
  | ok pr =>
  cases her : deps.embedding with
  | error e => simp [getTopContexts, hdr, hpr, her, noTrace]
  | ok emb =>
  cases hn : listPluck dr "name" with
  | none => simp [getTopContexts, hdr, hpr, her, hn, noTrace]
  | some dn =>
  cases hg : listPluck pr "doc_groups" with
  | none => simp [getTopContexts, hdr, hpr, her, hn, hg, noTrace]
  | some pn =>
  cases hsr : deps.searchResults with
  | error e => simp [getTopContexts, hdr, hpr, her, hn, hg, hsr, noTrace]
  | ok rs =>
  by_cases hemp : (processSearchResults rs).isEmpty = true
  · have hnil : processSearchResults rs = [] := by simpa using hemp
    simp [getTopContexts, hdr, hpr, her, hn, hg, hsr, hemp, noTrace, hnil, format_for_json]
    rfl
  · cases hfmt : format_for_json (processSearchResults rs) with
    | error e =>
      simp [getTopContexts, hdr, hpr, her, hn, hg, hsr, hemp, hfmt, noTrace]
    | ok fm =>
      simp [getTopContexts, hdr, hpr, her, hn, hg, hsr, hemp, hfmt, h1, h2, kgKeep,
        kgSummarized]

/-- Claim C4 core: when permission resolution, embedding, vector search and
formatting all succeed, the returned list is exactly the formatted vector
chunks (in engine order) followed by at most one PrimeKG item and then at
most one ClinicalKG item; no re-ranking across source kinds. -/
theorem getTopContexts_merge_order (deps : RetrievalDeps) (q c : String)
    (dr pr : List Pdict) (emb : List Int) (rs : List Pdict)
    (formatted : List Pdict) (dn pn : List PyVal)
    (hd : deps.disabledRows = Except.ok dr) (hdn : listPluck dr "name" = some dn)
    (hp : deps.publicRows = Except.ok pr) (hpn : listPluck pr "doc_groups" = some pn)
    (he : deps.embedding = Except.ok emb)
    (hs : deps.searchResults = Except.ok rs)
    (hf : format_for_json (processSearchResults rs) = Except.ok formatted) :
    ∃ pk ck : Option Pdict,
      (getTopContexts deps q c).1 = Except.ok (formatted ++ pk.toList ++ ck.toList) ∧
      (∀ d, pk = some d → dictGetD d "readable_filename" = PyVal.str "PrimeKG") ∧
      (∀ d, ck = some d → dictGetD d "readable_filename" = PyVal.str "ClinicalKG") := by
  by_cases hemp : (processSearchResults rs).isEmpty = true
  · have hnil : processSearchResults rs = [] := by simpa using hemp
    have hfe : formatted = [] := by
      rw [hnil] at hf
      have h0 : format_for_json [] = Except.ok ([] : List Pdict) := rfl
      rw [h0] at hf
      injection hf with hf2
      exact hf2.symm
    refine ⟨Option.none, Option.none, ?_, by simp, by simp⟩
    simp [getTopContexts, hd, hdn, hp, hpn, he, hs, hemp, hfe]
  · refine ⟨kgKeep (if should_query_primekg q then
        some (getPrimeKGContexts deps.primekgChain deps.summarize q) else Option.none),
      kgKeep (if should_query_clinical_kg q then
        some (getKnowledgeGraphContexts deps.clinicalChain deps.summarize q c)
        else Option.none), ?_, ?_, ?_⟩
    · simp [getTopContexts, hd, hdn, hp, hpn, he, hs, hemp, hf]
    · intro d hd2
      obtain ⟨⟨rt, su, rfl⟩, _⟩ := kgKeep_prime_shape _ _ _ _ _ hd2
      rfl
    · intro d hd2
      obtain ⟨⟨rt, su, robj, rfl⟩, _⟩ := kgKeep_clinical_shape _ _ _ _ _ _ hd2
      rfl

/-- The payload of a single vector-search hit used by several witnesses. -/
def plainPayload : Pdict :=
  [("page_content", PyVal.str "Lorem ipsum"),
   ("readable_filename", PyVal.str "file.pdf"),
   ("course_name", PyVal.str "CS101")]

/-- A dependency scenario in which every external call succeeds and vector
search returns one chunk. -/
def plainDeps : RetrievalDeps :=
  { disabledRows := .ok []
    publicRows := .ok []
    embedding := .ok [1]
    searchResults := .ok [plainPayload]
    primekgChain := fun _ => .ok (PyVal.dict [])
    clinicalChain := fun _ => .ok (PyVal.dict [])
    summarize := fun _ _ => .ok "summary" }

/-- The formatted item produced from `plainPayload`. -/
def plainItem : Pdict :=
  [("text", PyVal.str "Lorem ipsum"),
   ("readable_filename", PyVal.str "file.pdf"),
   ("course_name ", PyVal.str "CS101"),
   ("s3_path", PyVal.none),
   ("pagenumber", PyVal.none),
   ("url", PyVal.none),
   ("base_url", PyVal.none),
   ("doc_groups", PyVal.none)]

/-- Witness for C7: `hello` matches no routing keyword. -/
theorem getTopContexts_no_keywords_no_graph_witness :
    (getTopContexts plainDeps "hello" "CS101").2.primekgInvoked = false ∧
    (getTopContexts plainDeps "hello" "CS101").2.clinicalkgInvoked = false ∧
    (getTopContexts plainDeps "hello" "CS101").1 = Except.ok [plainItem] := by
  obtain ⟨hp, hc, _, _, _⟩ := getTopContexts_no_keywords_no_graph plainDeps "hello" "CS101"
    (by decide) (by decide)
  exact ⟨hp, hc, rfl⟩

/-- Witness for C4 on the one-chunk scenario. -/
theorem getTopContexts_merge_order_witness :
    (getTopContexts plainDeps "hello" "CS101").1 = Except.ok [plainItem] := by
  obtain ⟨pk, ck, hres, hpk, hck⟩ := getTopContexts_merge_order plainDeps "hello" "CS101"
    [] [] [1] [plainPayload] [plainItem] [] [] rfl rfl rfl rfl rfl rfl rfl
  exact rfl

/-- Claim C5 (amended): in every successful result, the list decomposes as
formatted vector items followed by the optional graph items, and every
graph-sourced item has a truthy `text` — but the vector part is *not*
filtered for empty text (see the counterexample). -/
theorem graph_items_have_truthy_text (deps : RetrievalDeps) (q c : String)
    (l : List Pdict) (h : (getTopContexts deps q c).1 = Except.ok l) :
    ∃ (rs formatted : List Pdict) (pk ck : Option Pdict),
      deps.searchResults = Except.ok rs ∧
      format_for_json (processSearchResults rs) = Except.ok formatted ∧
      l = formatted ++ pk.toList ++ ck.toList ∧
      (∀ d, pk = some d → pyTruthy (dictGetD d "text") = true) ∧
      (∀ d, ck = some d → pyTruthy (dictGetD d "text") = true) := by
  cases hdr : deps.disabledRows with
  | error e => rw [getTopContexts] at h; simp [hdr] at h
  | ok dr =>
  cases hpr : deps.publicRows with
  | error e => rw [getTopContexts] at h; simp [hdr, hpr] at h
  | ok pr =>
  cases her : deps.embedding with
  | error e => rw [getTopContexts] at h; simp [hdr, hpr, her] at h
  | ok emb =>
  cases hn : listPluck dr "name" with
  | none => rw [getTopContexts] at h; simp [hdr, hpr, her, hn] at h
  | some dn =>
  cases hg : listPluck pr "doc_groups" with
  | none => rw [getTopContexts] at h; simp [hdr, hpr, her, hn, hg] at h
  | some pn =>
  cases hsr : deps.searchResults with
  | error e => rw [getTopContexts] at h; simp [hdr, hpr, her, hn, hg, hsr] at h
  | ok rs =>
  by_cases hemp : (processSearchResults rs).isEmpty = true
  · have hnil : processSearchResults rs = [] := by simpa using hemp
    have hl : l = [] := by
      rw [getTopContexts] at h
      simp [hdr, hpr, her, hn, hg, hsr, hemp] at h
      exact h
    exact ⟨rs, [], Option.none, Option.none, rfl, by rw [hnil]; rfl, by simp [hl],
      by simp, by simp⟩
  · cases hfmt : format_for_json (processSearchResults rs) with
    | error e =>
      rw [getTopContexts] at h
      simp [hdr, hpr, her, hn, hg, hsr, hemp, hfmt] at h
    | ok fm =>
      have hl : l = fm
          ++ (kgKeep (if should_query_primekg q then
               some (getPrimeKGContexts deps.primekgChain deps.summarize q)
               else Option.none)).toList
          ++ (kgKeep (if should_query_clinical_kg q then
               some (getKnowledgeGraphContexts deps.clinicalChain deps.summarize q c)
               else Option.none)).toList := by
        rw [getTopContexts] at h
        simp [hdr, hpr, her, hn, hg, hsr, hemp, hfmt] at h
        rw [List.append_assoc]
        exact h.symm
      refine ⟨rs, fm, _, _, rfl, hfmt, hl, ?_, ?_⟩
      · intro d hd2
        exact (kgKeep_prime_shape _ _ _ _ _ hd2).2
      · intro d hd2
        exact (kgKeep_clinical_shape _ _ _ _ _ _ hd2).2

/-- A vector-search payload whose `page_content` is the empty string. -/
def emptyTextPayload : Pdict :=
  [("page_content", PyVal.str ""),
   ("readable_filename", PyVal.str "file.pdf"),
   ("course_name", PyVal.str "CS101")]

/-- Dependency outcomes where vector search returns only the empty-text chunk. -/
def emptyTextDeps : RetrievalDeps :=
  { disabledRows := .ok []
    publicRows := .ok []
    embedding := .ok [1]
    searchResults := .ok [emptyTextPayload]
    primekgChain := fun _ => .ok (PyVal.dict [])
    clinicalChain := fun _ => .ok (PyVal.dict [])
    summarize := fun _ _ => .ok "summary" }

/-- The formatted item produced from `emptyTextPayload`: its text is empty. -/
def emptyTextItem : Pdict :=
  [("text", PyVal.str ""),
   ("readable_filename", PyVal.str "file.pdf"),
   ("course_name ", PyVal.str "CS101"),
   ("s3_path", PyVal.none),
   ("pagenumber", PyVal.none),
   ("url", PyVal.none),
   ("base_url", PyVal.none),
   ("doc_groups", PyVal.none)]

/-- Counterexample to claim C5 as stated: a chunk with empty `page_content`
survives into the successful result, so not every returned item has
non-empty text — vector-sourced items are not filtered. -/
theorem getTopContexts_keeps_empty_text_vector_item_cex :
    (getTopContexts emptyTextDeps "hello" "CS101").1 = Except.ok [emptyTextItem] ∧
    dictGetD emptyTextItem "text" = PyVal.str "" ∧
    pyTruthy (dictGetD emptyTextItem "text") = false :=
  ⟨rfl, rfl, rfl⟩

/-- Witness for the amended C5 at the empty-text scenario. -/
theorem graph_items_have_truthy_text_witness :
    (getTopContexts emptyTextDeps "hello" "CS101").1 = Except.ok [emptyTextItem] := by
  obtain ⟨rs, fm, pk, ck, h1, h2, h3, h4, h5⟩ :=
    graph_items_have_truthy_text emptyTextDeps "hello" "CS101" [emptyTextItem] rfl
  exact rfl

/-- Claim C1 (amended): when the three fanned-out lookups succeed and
vector search yields zero processed chunks, `getTopContexts` returns an
empty list unconditionally — the relevance routers are never consulted and
no graph path runs, regardless of keywords in the query. -/
theorem getTopContexts_empty_vector_unconditional_empty (deps : RetrievalDeps)
    (q c : String) (dr pr : List Pdict) (emb : List Int) (rs : List Pdict)
    (dn pn : List PyVal)
    (hd : deps.disabledRows = Except.ok dr) (hdn : listPluck dr "name" = some dn)
    (hp : deps.publicRows = Except.ok pr) (hpn : listPluck pr "doc_groups" = some pn)
    (he : deps.embedding = Except.ok emb)
    (hs : deps.searchResults = Except.ok rs)
    (hempty : processSearchResults rs = []) :
    getTopContexts deps q c =
      (Except.ok [], { noTrace with vectorSearchInvoked := true }) := by
  simp [getTopContexts, hd, hdn, hp, hpn, he, hs, hempty, noTrace]

/-- Projection lemma: the `"results"` entry of the runner response dict is
the `results` field of the final state. -/
lemma stateToDict_results (s : KGQueryState) :
    dictGetD (stateToDict s) "results" = s.results := rfl

/-- A query that triggers the PrimeKG router. -/
def kwQuery : String := "What drugs treat hyperinsulinism?"

/-- A PrimeKG chain that answers every Cypher query usably. -/
def usableChain : String → Except String PyVal := fun _ =>
  .ok (PyVal.dict [("result", PyVal.str "Metformin")])

/-- A summariser that always succeeds. -/
def okSummarize : String → PyVal → Except String String := fun _ _ => .ok "Graph summary"

/-- Dependencies where vector search returns zero chunks while the PrimeKG
engine would produce a usable answer. -/
def emptyVectorDeps : RetrievalDeps :=
  { disabledRows := .ok []
    publicRows := .ok []
    embedding := .ok [1]
    searchResults := .ok []
    primekgChain := usableChain
    clinicalChain := usableChain
    summarize := okSummarize }

/-- On the usable chain the first attempt already succeeds. -/
lemma usableChain_first_attempt :
    (run_kg_query_with_retries usableChain generate_primekg_cypher kwQuery 3).2.results
      = PyVal.dict [("result", PyVal.str "Metformin")] := by
  unfold run_kg_query_with_retries
  rw [run_kg_loop_step]
  rw [if_pos (by rfl)]
  rfl

/-- The PrimeKG path on the usable chain yields a kept context item. -/
lemma usableChain_kg_context :
    getPrimeKGContexts usableChain okSummarize kwQuery
      = (primeKGContextDict (PyVal.str "Metformin") "Graph summary", true) := by
  have hscrut : dictGetD (run_primekg_query_with_retries usableChain kwQuery) "results"
      = PyVal.dict [("result", PyVal.str "Metformin")] := by
    unfold run_primekg_query_with_retries
    rw [stateToDict_results]
    exact usableChain_first_attempt
  unfold getPrimeKGContexts
  rw [hscrut]
  rfl

/-- Counterexample to claim C1 as stated: the query carries a PrimeKG
keyword and the graph path would produce a usable, keepable answer, yet
with zero vector chunks `getTopContexts` returns the empty list and never
consults a router or runs a graph path. -/
theorem getTopContexts_empty_vector_skips_graph_cex :
    should_query_primekg kwQuery = true ∧
    kgKeep (some (getPrimeKGContexts usableChain okSummarize kwQuery))
      = some (primeKGContextDict (PyVal.str "Metformin") "Graph summary") ∧
    getTopContexts emptyVectorDeps kwQuery "testcourse"
      = (Except.ok [], { noTrace with vectorSearchInvoked := true }) := by
  refine ⟨by decide, ?_, rfl⟩
  rw [usableChain_kg_context]
  rfl

/-- Witness for the amended C1. -/
theorem getTopContexts_empty_vector_unconditional_empty_witness :
    getTopContexts emptyVectorDeps kwQuery "testcourse"
      = (Except.ok [], { noTrace with vectorSearchInvoked := true }) :=
  getTopContexts_empty_vector_unconditional_empty emptyVectorDeps kwQuery "testcourse"
    [] [] [1] [] [] [] rfl rfl rfl rfl rfl rfl rfl

/-- Claim C8 (amended): a context item built from a chunk whose payload has
`page_content`, `readable_filename` and `course_name` preserves the text
and every recognized metadata field — `s3_path`, `url`, `base_url`,
`doc_groups`, `pagenumber` (with the legacy `pagenumber_or_timestamp`
mapped to `pagenumber` when `pagenumber` is absent) under their own names,
`readable_filename` under its own name, and `course_name` under the
trailing-space output key `"course_name "` (a typo in `format_for_json`,
line 610), so no recognized field value is lost. -/
theorem context_item_preserves_fields (payload : Pdict) (pc : String) (rf cn : PyVal)
    (hpc : dictGet payload "page_content" = some (PyVal.str pc))
    (hrf : dictGet payload "readable_filename" = some rf)
    (hcn : dictGet payload "course_name" = some cn) :
    ∃ doc item, processPayload payload = some doc ∧ format_one doc = Except.ok item ∧
      dictGet item "text" = some (PyVal.str pc) ∧
      dictGet item "readable_filename" = some rf ∧
      dictGet item "course_name " = some cn ∧
      dictGet item "course_name" = Option.none ∧
      (∀ v, dictGet payload "s3_path" = some v → dictGet item "s3_path" = some v) ∧
      (∀ v, dictGet payload "pagenumber" = some v → dictGet item "pagenumber" = some v) ∧
      (dictGet payload "pagenumber" = Option.none →
        ∀ v, dictGet payload "pagenumber_or_timestamp" = some v →
          dictGet item "pagenumber" = some v) ∧
      (∀ v, dictGet payload "url" = some v → dictGet item "url" = some v) ∧
      (∀ v, dictGet payload "base_url" = some v → dictGet item "base_url" = some v) ∧
      (∀ v, dictGet payload "doc_groups" = some v → dictGet item "doc_groups" = some v) := by
  have get0 : ∀ k, k ≠ "page_content" →
      dictGet (dictErase payload "page_content") k = dictGet payload k :=
    fun k hk => dictGet_erase_ne payload "page_content" k hk
  by_cases hmap : (!dictHasKey (dictErase payload "page_content") "pagenumber"
      && dictHasKey (dictErase payload "page_content") "pagenumber_or_timestamp") = true
  · -- legacy mapping branch: `pagenumber` is inserted from the legacy key
    obtain ⟨hno, hleg⟩ := Bool.and_eq_true_iff.mp hmap
    have hnopn : dictGet payload "pagenumber" = Option.none := by
      rw [← get0 "pagenumber" (by decide)]
      simpa [dictHasKey, Option.isSome_iff_exists] using hno
    set md : Pdict := dictInsert (dictErase payload "page_content") "pagenumber"
        (dictGetD (dictErase payload "page_content") "pagenumber_or_timestamp") with hmd
    have hmdrf : dictGet md "readable_filename" = some rf := by
      rw [hmd, dictGet_insert_ne _ _ _ _ (by decide), get0 _ (by decide)]
      exact hrf
    have hmdcn : dictGet md "course_name" = some cn := by
      rw [hmd, dictGet_insert_ne _ _ _ _ (by decide), get0 _ (by decide)]
      exact hcn
    refine ⟨⟨pc, md⟩,
      [("text", PyVal.str pc), ("readable_filename", rf), ("course_name ", cn),
       ("s3_path", dictGetD md "s3_path"), ("pagenumber", dictGetD md "pagenumber"),
       ("url", dictGetD md "url"), ("base_url", dictGetD md "base_url"),
       ("doc_groups", dictGetD md "doc_groups")],
      ?_, ?_, rfl, rfl, rfl, rfl, ?_, ?_, ?_, ?_, ?_, ?_⟩
    · unfold processPayload
      rw [hpc]
      simp only [hmap, if_true, hmd]
    · unfold format_one
      rw [hmdrf, hmdcn]
    · intro v hv
      show some (dictGetD md "s3_path") = some v
      rw [hmd, dictGetD, dictGet_insert_ne _ _ _ _ (by decide), get0 _ (by decide), hv]
      rfl
    · intro v hv
      rw [hnopn] at hv
      exact absurd hv (by simp)
    · intro _ v hv
      show some (dictGetD md "pagenumber") = some v
      rw [hmd, dictGetD, dictGet_insert_self, dictGetD, get0 _ (by decide), hv]
      rfl
    · intro v hv
      show some (dictGetD md "url") = some v
      rw [hmd, dictGetD, dictGet_insert_ne _ _ _ _ (by decide), get0 _ (by decide), hv]
      rfl
    · intro v hv
      show some (dictGetD md "base_url") = some v
      rw [hmd, dictGetD, dictGet_insert_ne _ _ _ _ (by decide), get0 _ (by decide), hv]
      rfl
    · intro v hv
      show some (dictGetD md "doc_groups") = some v
      rw [hmd, dictGetD, dictGet_insert_ne _ _ _ _ (by decide), get0 _ (by decide), hv]
      rfl
  · -- no legacy mapping: metadata is the payload minus `page_content`
    set md : Pdict := dictErase payload "page_content" with hmd
    have hmdrf : dictGet md "readable_filename" = some rf := by
      rw [hmd, get0 _ (by decide)]
      exact hrf
    have hmdcn : dictGet md "course_name" = some cn := by
      rw [hmd, get0 _ (by decide)]
      exact hcn
    refine ⟨⟨pc, md⟩,
      [("text", PyVal.str pc), ("readable_filename", rf), ("course_name ", cn),
       ("s3_path", dictGetD md "s3_path"), ("pagenumber", dictGetD md "pagenumber"),
       ("url", dictGetD md "url"), ("base_url", dictGetD md "base_url"),
       ("doc_groups", dictGetD md "doc_groups")],
      ?_, ?_, rfl, rfl, rfl, rfl, ?_, ?_, ?_, ?_, ?_, ?_⟩
    · unfold processPayload
      rw [hpc]
      simp only [Bool.not_eq_true] at hmap
      simp only [hmap, Bool.false_eq_true, if_false, hmd]
    · unfold format_one
      rw [hmdrf, hmdcn]
    · intro v hv
      show some (dictGetD md "s3_path") = some v
      rw [hmd, dictGetD, get0 _ (by decide), hv]
      rfl
    · intro v hv
      show some (dictGetD md "pagenumber") = some v
      rw [hmd, dictGetD, get0 _ (by decide), hv]
      rfl
    · intro hno v hv
      exfalso
      have h1 : dictHasKey (dictErase payload "page_content") "pagenumber" = false := by
        simp [dictHasKey, get0 _ (show "pagenumber" ≠ "page_content" by decide), hno]
      have h2 : dictHasKey (dictErase payload "page_content") "pagenumber_or_timestamp"
          = true := by
        simp [dictHasKey, get0 _ (show "pagenumber_or_timestamp" ≠ "page_content" by decide),
          hv]
      rw [h1, h2] at hmap
      simp at hmap
    · intro v hv
      show some (dictGetD md "url") = some v
      rw [hmd, dictGetD, get0 _ (by decide), hv]
      rfl
    · intro v hv
      show some (dictGetD md "base_url") = some v
      rw [hmd, dictGetD, get0 _ (by decide), hv]
      rfl
    · intro v hv
      show some (dictGetD md "doc_groups") = some v
      rw [hmd, dictGetD, get0 _ (by decide), hv]
      rfl

/-- A payload carrying `course_name` (and the required text fields). -/
def namedPayload : Pdict :=
  [("page_content", PyVal.str "body"),
   ("readable_filename", PyVal.str "file.pdf"),
   ("course_name", PyVal.str "CS101")]

/-- The document `_process_search_results` builds from `namedPayload`. -/
def namedDoc : Document :=
  { page_content := "body"
    metadata := [("readable_filename", PyVal.str "file.pdf"),
                 ("course_name", PyVal.str "CS101")] }

/-- The formatted output for `namedPayload`. -/
def namedItem : Pdict :=
  [("text", PyVal.str "body"),
   ("readable_filename", PyVal.str "file.pdf"),
   ("course_name ", PyVal.str "CS101"),
   ("s3_path", PyVal.none),
   ("pagenumber", PyVal.none),
   ("url", PyVal.none),
   ("base_url", PyVal.none),
   ("doc_groups", PyVal.none)]

/-- Counterexample to claim C8 as stated: the source `course_name` value is
not available under the output key `course_name` — `format_for_json` emits
it under `"course_name "` with a trailing space. -/
theorem format_for_json_course_name_key_cex :
    processPayload namedPayload = some namedDoc ∧
    format_one namedDoc = Except.ok namedItem ∧
    dictGet namedPayload "course_name" = some (PyVal.str "CS101") ∧
    dictGet namedItem "course_name" = Option.none ∧
    dictGet namedItem "course_name " = some (PyVal.str "CS101") :=
  ⟨rfl, rfl, rfl, rfl, rfl⟩

/-- A payload exercising the legacy `pagenumber_or_timestamp` mapping. -/
def legacyPnPayload : Pdict :=
  [("page_content", PyVal.str "body"),
   ("readable_filename", PyVal.str "file.pdf"),
   ("course_name", PyVal.str "CS101"),
   ("pagenumber_or_timestamp", PyVal.int 7),
   ("url", PyVal.str "http://example.com")]

/-- The document built from `legacyPnPayload`: the legacy page number is
copied under `pagenumber`. -/
def legacyPnDoc : Document :=
  { page_content := "body"
    metadata := [("readable_filename", PyVal.str "file.pdf"),
                 ("course_name", PyVal.str "CS101"),
                 ("pagenumber_or_timestamp", PyVal.int 7),
                 ("url", PyVal.str "http://example.com"),
                 ("pagenumber", PyVal.int 7)] }

/-- The formatted output for `legacyPnPayload`. -/
def legacyPnItem : Pdict :=
  [("text", PyVal.str "body"),
   ("readable_filename", PyVal.str "file.pdf"),
   ("course_name ", PyVal.str "CS101"),
   ("s3_path", PyVal.none),
   ("pagenumber", PyVal.int 7),
   ("url", PyVal.str "http://example.com"),
   ("base_url", PyVal.none),
   ("doc_groups", PyVal.none)]

/-- Witness for the amended C8 on the legacy-pagenumber payload. -/
theorem context_item_preserves_fields_witness :
    processPayload legacyPnPayload = some legacyPnDoc ∧
    format_one legacyPnDoc = Except.ok legacyPnItem ∧
    dictGet legacyPnItem "pagenumber" = some (PyVal.int 7) ∧
    dictGet legacyPnItem "url" = some (PyVal.str "http://example.com") := by
  obtain ⟨doc, item, h1, h2, h3, h4, h5, h6, h7, h8, h9, h10, h11, h12⟩ :=
    context_item_preserves_fields legacyPnPayload "body" (PyVal.str "file.pdf")
      (PyVal.str "CS101") rfl rfl rfl
  exact ⟨rfl, rfl, rfl, rfl⟩

/-- Claim C9: if the final raw result of a graph runner carries a string
`"result"` answer containing the IDK phrase in any
letter case, both KG context builders return the empty dict, the
summariser is never called on that path, and the merge keeps nothing from
that path. -/
theorem kg_idk_results_dropped
    (chainP chainC : String → Except String PyVal)
    (summarize : String → PyVal → Except String String) (q c : String)
    (s1 s2 : String) (robjP robjC : Pdict)
    (hP1 : (run_kg_query_with_retries chainP generate_primekg_cypher q 3).2.results
      = PyVal.dict robjP)
    (hP2 : dictGet robjP "result" = some (PyVal.str s1))
    (hP3 : strContainsSub (pyLower s1) idkPhrase = true)
    (hC1 : (run_kg_query_with_retries chainC generate_clinicalkg_cypher q 3).2.results
      = PyVal.dict robjC)
    (hC2 : dictGet robjC "result" = some (PyVal.str s2))
    (hC3 : strContainsSub (pyLower s2) idkPhrase = true) :
    getPrimeKGContexts chainP summarize q = ([], false) ∧
    getKnowledgeGraphContexts chainC summarize q c = ([], false) ∧
    kgKeep (some (getPrimeKGContexts chainP summarize q)) = Option.none ∧
    kgKeep (some (getKnowledgeGraphContexts chainC summarize q c)) = Option.none := by
  have hP : getPrimeKGContexts chainP summarize q = ([], false) := by
    have hscrut : dictGetD (run_primekg_query_with_retries chainP q) "results"
        = PyVal.dict robjP := by
      unfold run_primekg_query_with_retries
      rw [stateToDict_results]
      exact hP1
    have hk : dictHasKey robjP "result" = true := by simp [dictHasKey, hP2]
    have hres : dictGetD robjP "result" = PyVal.str s1 := by simp [dictGetD, hP2]
    unfold getPrimeKGContexts
    rw [hscrut]
    simp only [hk, if_true, hres, isIdkText, hP3, if_true]
  have hC : getKnowledgeGraphContexts chainC summarize q c = ([], false) := by
    have hscrut : dictGetD (run_clinicalkg_query_with_retries chainC q) "results"
        = PyVal.dict robjC := by
      unfold run_clinicalkg_query_with_retries
      rw [stateToDict_results]
      exact hC1
    have hk : dictHasKey robjC "result" = true := by simp [dictHasKey, hC2]
    have hres : dictGetD robjC "result" = PyVal.str s2 := by simp [dictGetD, hC2]
    unfold getKnowledgeGraphContexts
    rw [hscrut]
    simp only [hk, if_true, hres, isIdkText, hC3, if_true]
  refine ⟨hP, hC, ?_, ?_⟩
  · rw [hP]
    rfl
  · rw [hC]
    rfl

/-- The engine answer used by the C9 witness (apostrophe assembled). -/
def idkAnswer : String := "I don" ++ String.singleton apos ++ "t know the answer."

/-- A chain that always answers with the IDK phrase. -/
def idkChain : String → Except String PyVal := fun _ =>
  .ok (PyVal.dict [("result", PyVal.str idkAnswer)])

/-- The PrimeKG runner on `idkChain` succeeds immediately with the IDK dict. -/
lemma idkChain_prime_results :
    (run_kg_query_with_retries idkChain generate_primekg_cypher "drug" 3).2.results
      = PyVal.dict [("result", PyVal.str idkAnswer)] := by
  unfold run_kg_query_with_retries
  rw [run_kg_loop_step]
  rw [if_pos (by decide)]
  rfl

/-- The Clinical KG runner on `idkChain` succeeds immediately with the IDK dict. -/
lemma idkChain_clinical_results :
    (run_kg_query_with_retries idkChain generate_clinicalkg_cypher "drug" 3).2.results
      = PyVal.dict [("result", PyVal.str idkAnswer)] := by
  unfold run_kg_query_with_retries
  rw [run_kg_loop_step]
  rw [if_pos (by decide)]
  rfl

/-- Witness for C9. -/
theorem kg_idk_results_dropped_witness :
    getPrimeKGContexts idkChain okSummarize "drug" = ([], false) ∧
    getKnowledgeGraphContexts idkChain okSummarize "drug" "CS101" = ([], false) := by
  obtain ⟨h1, h2, h3, h4⟩ := kg_idk_results_dropped idkChain idkChain okSummarize "drug"
    "CS101" idkAnswer idkAnswer [("result", PyVal.str idkAnswer)]
    [("result", PyVal.str idkAnswer)] idkChain_prime_results rfl (by decide)
    idkChain_clinical_results rfl (by decide)
  exact ⟨h1, h2⟩
